import Mathlib

/-!
Verification of the flocker-go control-service client.

The development shallowly embeds the two client implementations found in
`client.go` (`Client` and `flockerClient`) together with the identifier
derivation `datasetIDFromName` (MD5-based UUIDv4-tagged hash, from the
repository's hashing helper file).  HTTP interactions are modelled by
explicit response values fed to the embedded functions; machine words are
`Nat` with explicit reduction modulo 2^32.
-/

namespace Flocker

/-! ### MD5 over byte lists (crypto/md5 as used by datasetIDFromName) -/

/-- Reduce modulo 2^32 (a 32-bit machine word). -/
def w32 (n : Nat) : Nat := n % 4294967296

/-- 32-bit addition with wrap-around. -/
def wadd (a b : Nat) : Nat := (a + b) % 4294967296

/-- 32-bit bitwise complement (argument assumed reduced, reduced first anyway). -/
def wnot (a : Nat) : Nat := 4294967295 - a % 4294967296

/-- Rotate a 32-bit word left by `s` bits. -/
def rotl (x s : Nat) : Nat :=
  (Nat.lor (Nat.shiftLeft (x % 4294967296) s) (Nat.shiftRight (x % 4294967296) (32 - s))) % 4294967296

/-- The 64 MD5 sine-derived round constants. -/
def kTable : List Nat :=
  [3614090360, 3905402710, 606105819, 3250441966, 4118548399, 1200080426, 2821735955, 4249261313,
   1770035416, 2336552879, 4294925233, 2304563134, 1804603682, 4254626195, 2792965006, 1236535329,
   4129170786, 3225465664, 643717713, 3921069994, 3593408605, 38016083, 3634488961, 3889429448,
   568446438, 3275163606, 4107603335, 1163531501, 2850285829, 4243563512, 1735328473, 2368359562,
   4294588738, 2272392833, 1839030562, 4259657740, 2763975236, 1272893353, 4139469664, 3200236656,
   681279174, 3936430074, 3572445317, 76029189, 3654602809, 3873151461, 530742520, 3299628645,
   4096336452, 1126891415, 2878612391, 4237533241, 1700485571, 2399980690, 4293915773, 2240044497,
   1873313359, 4264355552, 2734768916, 1309151649, 4149444226, 3174756917, 718787259, 3951481745]

/-- The 64 MD5 per-round left-rotation amounts. -/
def sTable : List Nat :=
  [7, 12, 17, 22, 7, 12, 17, 22, 7, 12, 17, 22, 7, 12, 17, 22,
   5, 9, 14, 20, 5, 9, 14, 20, 5, 9, 14, 20, 5, 9, 14, 20,
   4, 11, 16, 23, 4, 11, 16, 23, 4, 11, 16, 23, 4, 11, 16, 23,
   6, 10, 15, 21, 6, 10, 15, 21, 6, 10, 15, 21, 6, 10, 15, 21]

/-- One MD5 round: state `(a, b, c, d)`, message words `m`, round index `i`. -/
def md5Round (m : List Nat) (st : Nat × Nat × Nat × Nat) (i : Nat) : Nat × Nat × Nat × Nat :=
  let a := st.1
  let b := st.2.1
  let c := st.2.2.1
  let d := st.2.2.2
  let f :=
    if i < 16 then Nat.lor (Nat.land b c) (Nat.land (wnot b) d)
    else if i < 32 then Nat.lor (Nat.land d b) (Nat.land (wnot d) c)
    else if i < 48 then Nat.xor (Nat.xor b c) d
    else Nat.xor c (Nat.lor b (wnot d))
  let g :=
    if i < 16 then i
    else if i < 32 then (5 * i + 1) % 16
    else if i < 48 then (3 * i + 5) % 16
    else (7 * i) % 16
  let tmp := wadd (wadd (wadd a f) (kTable.getD i 0)) (m.getD g 0)
  (d, wadd b (rotl tmp (sTable.getD i 0)), b, c)

/-- Iterate the 64 MD5 rounds; `fuel` counts down, the round index is `64 - fuel`. -/
def md5Iter (m : List Nat) : Nat → Nat × Nat × Nat × Nat → Nat × Nat × Nat × Nat
  | 0, st => st
  | n + 1, st => md5Iter m n (md5Round m st (64 - (n + 1)))

/-- Little-endian 32-bit word number `j` of a 64-byte block. -/
def leWord (bs : List Nat) (j : Nat) : Nat :=
  bs.getD (4 * j) 0 + 256 * bs.getD (4 * j + 1) 0 +
    65536 * bs.getD (4 * j + 2) 0 + 16777216 * bs.getD (4 * j + 3) 0

/-- The 16 message words of one 64-byte block. -/
def blockWords (bs : List Nat) : List Nat :=
  (List.range 16).map (leWord bs)

/-- Process a single 64-byte block, updating the running MD5 state. -/
def md5Block (st : Nat × Nat × Nat × Nat) (block : List Nat) : Nat × Nat × Nat × Nat :=
  let r := md5Iter (blockWords block) 64 st
  (wadd st.1 r.1, wadd st.2.1 r.2.1, wadd st.2.2.1 r.2.2.1, wadd st.2.2.2 r.2.2.2)

/-- Process `n` consecutive 64-byte blocks of `msg`. -/
def md5Blocks (st : Nat × Nat × Nat × Nat) (msg : List Nat) : Nat → Nat × Nat × Nat × Nat
  | 0 => st
  | n + 1 => md5Blocks (md5Block st (msg.take 64)) (msg.drop 64) n

/-- MD5 padding: append 0x80, zero bytes to 56 mod 64, then the bit length little-endian. -/
def md5Pad (msg : List Nat) : List Nat :=
  let len := msg.length
  let z := (119 - len % 64) % 64
  let bits := 8 * len
  msg ++ [128] ++ List.replicate z 0 ++
    [bits % 256, bits / 256 % 256, bits / 65536 % 256, bits / 16777216 % 256,
     bits / 4294967296 % 256, bits / 1099511627776 % 256,
     bits / 281474976710656 % 256, bits / 72057594037927936 % 256]

/-- A 32-bit word as four little-endian bytes. -/
def leBytes (x : Nat) : List Nat :=
  [x % 256, x / 256 % 256, x / 65536 % 256, x / 16777216 % 256]

/-- Serialize the four MD5 state words into the 16-byte digest. -/
def md5Digest (st : Nat × Nat × Nat × Nat) : List Nat :=
  leBytes st.1 ++ leBytes st.2.1 ++ leBytes st.2.2.1 ++ leBytes st.2.2.2

/-- MD5 of a byte list. -/
def md5 (msg : List Nat) : List Nat :=
  let p := md5Pad msg
  md5Digest (md5Blocks (1732584193, 4023233417, 2562383102, 271733878) p (p.length / 64))

/-! ### UUID formatting and datasetIDFromName -/

/-- UTF-8 encoding of one Unicode code point (Go byte conversion of a string). -/
def utf8Bytes (c : Nat) : List Nat :=
  if c < 128 then [c]
  else if c < 2048 then [192 + c / 64, 128 + c % 64]
  else if c < 65536 then [224 + c / 4096, 128 + c / 64 % 64, 128 + c % 64]
  else [240 + c / 262144, 128 + c / 4096 % 64, 128 + c / 64 % 64, 128 + c % 64]

/-- UTF-8 bytes of a character list. -/
def strBytesAux : List Char → List Nat
  | [] => []
  | ch :: rest => utf8Bytes ch.toNat ++ strBytesAux rest

/-- The bytes of a Go string (UTF-8). -/
def strBytes (s : String) : List Nat := strBytesAux s.data

/-- Replace the element at an index by applying `f` (identity out of range). -/
def setIdx : List Nat → Nat → (Nat → Nat) → List Nat
  | [], _, _ => []
  | b :: bs, 0, f => f b :: bs
  | b :: bs, n + 1, f => b :: setIdx bs n f

/-- The NIL UUID namespace used as hashing space. -/
def uuidNIL : List Nat := List.replicate 16 0

/-- Hash-based UUID bytes: digest of space ++ data with version and variant bits forced. -/
def newHashMD5 (space data : List Nat) (version : Nat) : List Nat :=
  let s := md5 (space ++ data)
  let u := s.take 16
  let u := setIdx u 6 (fun b => Nat.lor (Nat.land b 15) (Nat.land version 15 * 16))
  setIdx u 8 (fun b => Nat.lor (Nat.land b 63) 128)

/-- Lowercase hex digit for a value below 16. -/
def hexDigit (n : Nat) : Char :=
  if n < 10 then Char.ofNat (48 + n) else Char.ofNat (87 + n)

/-- Two lowercase hex characters per byte. -/
def hexBytes : List Nat → List Char
  | [] => []
  | b :: bs => hexDigit (b / 16 % 16) :: hexDigit (b % 16) :: hexBytes bs

/-- Lowercase hex string of a byte list. -/
def hexStr (bs : List Nat) : String := String.mk (hexBytes bs)

/-- Canonical 8-4-4-4-12 textual form of a 16-byte UUID (empty on wrong length). -/
def uuidString (bs : List Nat) : String :=
  if bs.length = 16 then
    hexStr (bs.take 4) ++ "-" ++ hexStr ((bs.drop 4).take 2) ++ "-" ++
      hexStr ((bs.drop 6).take 2) ++ "-" ++ hexStr ((bs.drop 8).take 2) ++ "-" ++
      hexStr (bs.drop 10)
  else ""

/-- datasetIDFromName returns a UUID string for the input value
(uuid.NewHash(md5.New(), uuid.NIL, bytes(v), 4) rendered as a string). -/
def datasetIDFromName (v : String) : String :=
  uuidString (newHashMD5 uuidNIL (strBytes v) 4)

/-! ### Data model of the control-service client (client.go) -/

/-- The default maximum size constant, a json.Number literal in the source. -/
def defaultVolumeSize : String := "107374182400"

/-- Decimal parse of a digit string (strconv.Atoi on a numeric literal). -/
def parseDecimal (cs : List Char) : Nat :=
  cs.foldl (fun n c => n * 10 + (c.toNat - 48)) 0

/-- The error values of client.go, by identity. -/
inductive Err where
  | stateNotFound
  | configurationNotFound
  | volumeAlreadyExists
  | volumeDoesNotExist
  | updatingDataset
  | decodeError (msg : String)
  | transport (msg : String)
  | statusError (code : Nat)
deriving DecidableEq

/-- Outcome of a GET against the control service: a transport failure,
a body that fails to decode, or the decoded body. -/
inductive FetchResult (α : Type) where
  | transportErr (msg : String)
  | decodeErr (msg : String)
  | ok (val : α)
deriving DecidableEq

/-- metadata of a dataset configuration. -/
structure metadataPayload where
  name : String
deriving DecidableEq

/-- configurationPayload: body POSTed to and decoded from configuration/datasets.
Zero-valued fields are omitted on the wire (omitempty). -/
structure configurationPayload where
  primary : String
  datasetID : String
  maximumSize : String
  metadata : metadataPayload
deriving DecidableEq

/-- datasetState: one entry of the state/datasets list. -/
structure datasetState where
  path : String
  datasetID : String
  primary : String
  maximumSize : String
deriving DecidableEq

/-- nodeStatePayload: one entry of the state/nodes list. -/
structure nodeStatePayload where
  uuid : String
  host : String
deriving DecidableEq

/-- Configuration of the Client implementation (fields used by its methods). -/
structure ClientCfg where
  host : String
  clientIP : String
  maximumSize : String
deriving DecidableEq

/-- Configuration of the flockerClient implementation. -/
structure FlockerCfg where
  host : String
  maximumSize : String
deriving DecidableEq

deriving instance DecidableEq for Except

/-- Outcome of the creation POST: transport failure, or a status code with
the (decoded or malformed) response body. -/
inductive PostResult where
  | transportErr (msg : String)
  | resp (status : Nat) (body : Except String configurationPayload)
deriving DecidableEq

/-- Outcome of the update POST (its body is never read). -/
inductive UpdatePostResult where
  | transportErr (msg : String)
  | resp (status : Nat)
deriving DecidableEq

/-- Requests a client run issues, in order. -/
inductive Request where
  | getNodes
  | postCreate (payload : configurationPayload)
  | getDatasetStates
  | postUpdate (datasetID : String) (primary : String)
deriving DecidableEq

/-- Environment of one CreateVolume run: the node-list response, the creation
POST outcome, and the dataset-state response of each successive poll. -/
structure CreateEnv where
  nodes : FetchResult (List nodeStatePayload)
  create : PostResult
  polls : Nat → FetchResult (List datasetState)

/-- Environment of one Client.LookupVolume run. -/
structure LookupEnv where
  configs : FetchResult (List configurationPayload)
  states : FetchResult (List datasetState)

/-! ### Operations (client.go) -/

/-- The range loop of the primary lookup: first node whose host equals the key. -/
def findNodeUUID (hostKey : String) : List nodeStatePayload → Except Err String
  | [] => .error .stateNotFound
  | s :: rest => if s.host = hostKey then .ok s.uuid else findNodeUUID hostKey rest

/-- Client.LookupPrimaryUUID: GET state/nodes, decode, match on the clientIP field. -/
def Client.LookupPrimaryUUID (c : ClientCfg) (resp : FetchResult (List nodeStatePayload)) :
    Except Err String :=
  match resp with
  | .transportErr m => .error (.transport m)
  | .decodeErr m => .error (.decodeError m)
  | .ok states => findNodeUUID c.clientIP states

/-- flockerClient.findPrimaryUUID: GET state/nodes, decode, match on the host field. -/
def flockerClient.findPrimaryUUID (c : FlockerCfg) (resp : FetchResult (List nodeStatePayload)) :
    Except Err String :=
  match resp with
  | .transportErr m => .error (.transport m)
  | .decodeErr m => .error (.decodeError m)
  | .ok states => findNodeUUID c.host states

/-- The range loop of GetDatasetState: first entry with the given dataset id. -/
def findDatasetState (datasetID : String) : List datasetState → Except Err datasetState
  | [] => .error .stateNotFound
  | s :: rest => if s.datasetID = datasetID then .ok s else findDatasetState datasetID rest

/-- GetDatasetState (identical in both implementations): GET state/datasets,
decode, search by dataset id. -/
def GetDatasetState (resp : FetchResult (List datasetState)) (datasetID : String) :
    Except Err datasetState :=
  match resp with
  | .transportErr m => .error (.transport m)
  | .decodeErr m => .error (.decodeError m)
  | .ok states => findDatasetState datasetID states

/-- The range loop shared by findIDInConfigurationsPayload and
QueryDatasetIDFromName: first entry whose metadata name equals the key. -/
def findIDInConfigurations (name : String) : List configurationPayload → Except Err String
  | [] => .error .configurationNotFound
  | r :: rest => if r.metadata.name = name then .ok r.datasetID else findIDInConfigurations name rest

/-- findIDInConfigurationsPayload: decode a configuration list body and search
it by name; a malformed body propagates the decode error. -/
def findIDInConfigurationsPayload (body : Except String (List configurationPayload))
    (name : String) : Except Err String :=
  match body with
  | .error m => .error (.decodeError m)
  | .ok configurations => findIDInConfigurations name configurations

/-- Client.QueryDatasetIDFromName: GET configuration/datasets and search by name. -/
def Client.QueryDatasetIDFromName (resp : FetchResult (List configurationPayload))
    (v : String) : Except Err String :=
  match resp with
  | .transportErr m => .error (.transport m)
  | .decodeErr m => .error (.decodeError m)
  | .ok configurations => findIDInConfigurations v configurations

/-- The waiting loop of CreateVolume.  `i` counts the polls already issued,
`fuel` is the number of ticks the deadline still allows; the Go loop polls
once per tick.  The err of each poll is scoped to the if statement, so the
timeout case returns the function-scoped named return err, which is still
nil from the successful creation POST: deadline expiry yields the empty
path with a nil error, modelled as a successful empty result.  The second
component of the result is the total number of polls issued. -/
def pollLoop (polls : Nat → FetchResult (List datasetState)) (datasetID : String) :
    Nat → Nat → Except Err String × Nat
  | i, fuel =>
    match GetDatasetState (polls i) datasetID with
    | .ok s => (.ok s.path, i + 1)
    | .error e =>
      if e = Err.stateNotFound then
        match fuel with
        | 0 => (.ok "", i + 1)
        | fuel' + 1 => pollLoop polls datasetID (i + 1) fuel'
      else (.error e, i + 1)

/-- Client.CreateVolume: resolve the primary, POST a configuration without a
dataset id, decode the response body, then poll the returned dataset id.
Returns the outcome together with the request trace. -/
def Client.CreateVolume (c : ClientCfg) (env : CreateEnv) (dir : String) (fuel : Nat) :
    Except Err String × List Request :=
  match Client.LookupPrimaryUUID c env.nodes with
  | .error e => (.error e, [.getNodes])
  | .ok primary =>
    let payload : configurationPayload :=
      ⟨primary, "", c.maximumSize, ⟨dir⟩⟩
    match env.create with
    | .transportErr m => (.error (.transport m), [.getNodes, .postCreate payload])
    | .resp status body =>
      if status = 409 then
        (.error .volumeAlreadyExists, [.getNodes, .postCreate payload])
      else if status ≥ 300 then
        (.error (.statusError status), [.getNodes, .postCreate payload])
      else
        match body with
        | .error m => (.error (.decodeError m), [.getNodes, .postCreate payload])
        | .ok p =>
          let r := pollLoop env.polls p.datasetID 0 fuel
          (r.1, [.getNodes, .postCreate payload] ++ List.replicate r.2 .getDatasetStates)

/-- flockerClient.CreateVolume: resolve the primary, POST a configuration
carrying the name-derived dataset id, ignore the response body, then poll
that derived id.  Returns the outcome together with the request trace. -/
def flockerClient.CreateVolume (c : FlockerCfg) (env : CreateEnv) (dir : String) (fuel : Nat) :
    Except Err String × List Request :=
  match flockerClient.findPrimaryUUID c env.nodes with
  | .error e => (.error e, [.getNodes])
  | .ok primary =>
    let payload : configurationPayload :=
      ⟨primary, datasetIDFromName dir, c.maximumSize, ⟨dir⟩⟩
    match env.create with
    | .transportErr m => (.error (.transport m), [.getNodes, .postCreate payload])
    | .resp status _ =>
      if status = 409 then
        (.error .volumeAlreadyExists, [.getNodes, .postCreate payload])
      else if status ≥ 300 then
        (.error (.statusError status), [.getNodes, .postCreate payload])
      else
        let r := pollLoop env.polls (datasetIDFromName dir) 0 fuel
        (r.1, [.getNodes, .postCreate payload] ++ List.replicate r.2 .getDatasetStates)

/-- Client.LookupVolume: name to id via the configuration list, then the
dataset state; a bare StateNotFound becomes VolumeDoesNotExist. -/
def Client.LookupVolume (env : LookupEnv) (dir : String) : Except Err String :=
  match Client.QueryDatasetIDFromName env.configs dir with
  | .error e => .error e
  | .ok datasetID =>
    match GetDatasetState env.states datasetID with
    | .ok s => .ok s.path
    | .error e => if e = Err.stateNotFound then .error .volumeDoesNotExist else .error e

/-- flockerClient.LookupVolume: derive the id from the name, then the dataset
state; a bare StateNotFound becomes VolumeDoesNotExist. -/
def flockerClient.LookupVolume (states : FetchResult (List datasetState)) (dir : String) :
    Except Err String :=
  match GetDatasetState states (datasetIDFromName dir) with
  | .ok s => .ok s.path
  | .error e => if e = Err.stateNotFound then .error .volumeDoesNotExist else .error e

/-- Client.UpdateDatasetPrimary: one POST; only a status of 300 or above is an
error (any status below 300, informational ones included, is success). -/
def Client.UpdateDatasetPrimary (res : UpdatePostResult) (datasetID newPrimary : String) :
    Except Err Unit × List Request :=
  match res with
  | .transportErr m => (.error (.transport m), [.postUpdate datasetID newPrimary])
  | .resp status =>
    if status ≥ 300 then (.error .updatingDataset, [.postUpdate datasetID newPrimary])
    else (.ok (), [.postUpdate datasetID newPrimary])

/-- flockerClient.UpdateDatasetPrimary: derive the id from the name, one POST;
any status outside the interval from 200 up to but excluding 300 is an error. -/
def flockerClient.UpdateDatasetPrimary (res : UpdatePostResult) (dir newPrimary : String) :
    Except Err Unit × List Request :=
  let datasetID := datasetIDFromName dir
  match res with
  | .transportErr m => (.error (.transport m), [.postUpdate datasetID newPrimary])
  | .resp status =>
    if status < 200 ∨ status ≥ 300 then
      (.error .updatingDataset, [.postUpdate datasetID newPrimary])
    else (.ok (), [.postUpdate datasetID newPrimary])

/-- First creation payload POSTed in a request trace, when any. -/
def postedPayload : List Request → Option configurationPayload
  | [] => none
  | .postCreate p :: _ => some p
  | _ :: rest => postedPayload rest

/-- Number of polling requests in a request trace. -/
def pollCount : List Request → Nat
  | [] => 0
  | .getDatasetStates :: rest => pollCount rest + 1
  | _ :: rest => pollCount rest

/-- Default configuration payload (Go zero value), used as getD fallback. -/
def dfltCfg : configurationPayload := ⟨"", "", "", ⟨""⟩⟩

/-- Concrete run environment: create POST answers 409 (volume pre-exists). -/
def env409 : CreateEnv :=
  ⟨.ok [⟨"A-B-C-D", "127.0.0.1"⟩], .resp 409 (.ok dfltCfg), fun _ => .ok []⟩

/-- Concrete run environment: creation accepted, no dataset ever appears. -/
def envTimeout : CreateEnv :=
  ⟨.ok [⟨"U", "h"⟩], .resp 200 (.ok ⟨"U", "", defaultVolumeSize, ⟨"dir"⟩⟩), fun _ => .ok []⟩

/-- Concrete run environment: creation accepted with an unread trivial body. -/
def env4 : CreateEnv :=
  ⟨.ok [⟨"U", "h"⟩], .resp 201 (.ok dfltCfg), fun _ => .ok []⟩

/-- Concrete run environment: creation accepted but its body is malformed. -/
def env10 : CreateEnv :=
  ⟨.ok [⟨"U", "h"⟩], .resp 200 (.error "bad json"), fun _ => .ok []⟩

/-- Concrete run environment: creation accepted, body carrying the derived id. -/
def env10w : CreateEnv :=
  ⟨.ok [⟨"U", "h"⟩],
   .resp 200 (.ok ⟨"U", datasetIDFromName "dir", defaultVolumeSize, ⟨"dir"⟩⟩),
   fun _ => .ok []⟩

/-- Concrete lookup environment: one configuration and one dataset state. -/
def lookupEnvW : LookupEnv :=
  ⟨.ok [⟨"p1", "ID-1", defaultVolumeSize, ⟨"dir"⟩⟩], .ok [⟨"P", "ID-1", "", ""⟩]⟩

/-- The configuration list of the repository's search test. -/
def cfgsW : List configurationPayload :=
  [⟨"", "1-2-3", "", ⟨"test"⟩⟩, ⟨"", "The-42-id", "", ⟨"search-for-this-name"⟩⟩]

set_option maxRecDepth 16000

/-! ### Helper lemmas -/

/-- The MD5 digest of any state is sixteen bytes. -/
theorem length_md5Digest (st : Nat × Nat × Nat × Nat) : (md5Digest st).length = 16 := by
  simp [md5Digest, leBytes]

/-- MD5 always produces a sixteen-byte digest. -/
theorem length_md5 (msg : List Nat) : (md5 msg).length = 16 :=
  length_md5Digest _

/-- setIdx preserves the length of the list. -/
theorem length_setIdx (l : List Nat) (n : Nat) (f : Nat → Nat) :
    (setIdx l n f).length = l.length := by
  induction l generalizing n with
  | nil => rfl
  | cons b bs ih =>
    cases n with
    | zero => rfl
    | succ n => simp [setIdx, ih]

/-- The hash-based UUID has sixteen bytes. -/
theorem length_newHashMD5 (space data : List Nat) (version : Nat) :
    (newHashMD5 space data version).length = 16 := by
  simp [newHashMD5, length_setIdx, List.length_take, length_md5]

/-- hexBytes yields two characters per byte. -/
theorem length_hexBytes (l : List Nat) : (hexBytes l).length = 2 * l.length := by
  induction l with
  | nil => rfl
  | cons b bs ih => simp [hexBytes, ih]; omega

/-- hexStr yields two characters per byte. -/
theorem length_hexStr (l : List Nat) : (hexStr l).length = 2 * l.length :=
  length_hexBytes l

/-- The canonical form of a sixteen-byte UUID has 36 characters. -/
theorem length_uuidString (bs : List Nat) (h : bs.length = 16) :
    (uuidString bs).length = 36 := by
  rw [uuidString, if_pos h]
  rw [String.length_append, String.length_append, String.length_append,
    String.length_append, String.length_append, String.length_append,
    String.length_append, String.length_append]
  rw [length_hexStr, length_hexStr, length_hexStr, length_hexStr, length_hexStr]
  simp [List.length_take, List.length_drop, h, show ("-" : String).length = 1 from rfl]

/-- Every derived identifier is a 36-character UUID string. -/
theorem datasetIDFromName_length (v : String) : (datasetIDFromName v).length = 36 :=
  length_uuidString _ (length_newHashMD5 _ _ _)

/-- First-match characterisation of the node search loop. -/
theorem findNodeUUID_spec (hostKey : String) (states : List nodeStatePayload) :
    (∃ s, s ∈ states ∧ s.host = hostKey ∧ findNodeUUID hostKey states = .ok s.uuid) ∨
      ((∀ s ∈ states, s.host ≠ hostKey) ∧
        findNodeUUID hostKey states = .error .stateNotFound) := by
  induction states with
  | nil => exact Or.inr ⟨by simp, rfl⟩
  | cons s rest ih =>
    by_cases h : s.host = hostKey
    · exact Or.inl ⟨s, List.mem_cons_self s rest, h, by simp [findNodeUUID, h]⟩
    · rcases ih with ⟨t, ht, hh, he⟩ | ⟨hall, he⟩
      · exact Or.inl ⟨t, List.mem_cons_of_mem s ht, hh, by simp [findNodeUUID, h, he]⟩
      · refine Or.inr ⟨?_, by simp [findNodeUUID, h, he]⟩
        intro t hht
        rcases List.mem_cons.mp hht with rfl | hm
        · exact h
        · exact hall t hm

/-- The configuration search fails when no entry carries the name. -/
theorem findIDInConfigurations_notFound (name : String) (configs : List configurationPayload)
    (h : ∀ r ∈ configs, r.metadata.name ≠ name) :
    findIDInConfigurations name configs = .error .configurationNotFound := by
  induction configs with
  | nil => rfl
  | cons r rest ih =>
    have hr : r.metadata.name ≠ name := h r (List.mem_cons_self r rest)
    simp only [findIDInConfigurations, if_neg hr]
    exact ih fun t ht => h t (List.mem_cons_of_mem r ht)

/-- The configuration search returns the identifier of the first matching entry. -/
theorem findIDInConfigurations_first (name : String) (configs : List configurationPayload)
    (k : Nat) (hk : k < configs.length)
    (hmatch : (configs.getD k dfltCfg).metadata.name = name)
    (hbefore : ∀ j, j < k → (configs.getD j dfltCfg).metadata.name ≠ name) :
    findIDInConfigurations name configs = .ok (configs.getD k dfltCfg).datasetID := by
  induction configs generalizing k with
  | nil => exact absurd hk (Nat.not_lt_zero k)
  | cons r rest ih =>
    cases k with
    | zero =>
      simp only [List.getD_cons_zero] at hmatch ⊢
      simp [findIDInConfigurations, hmatch]
    | succ k =>
      have hr : r.metadata.name ≠ name := by
        have := hbefore 0 (Nat.succ_pos k)
        simpa using this
      simp only [List.getD_cons_succ] at hmatch ⊢
      simp only [findIDInConfigurations, if_neg hr]
      exact ih k (Nat.lt_of_succ_lt_succ (by simpa using hk)) hmatch
        fun j hj => by simpa using hbefore (j + 1) (Nat.succ_lt_succ hj)

/-- A polling loop in which every poll reports StateNotFound runs out its
fuel and — through the shadowed err of the source — ends with the empty
path and a nil error, having issued one poll per tick plus one. -/
theorem pollLoop_notFound (polls : Nat → FetchResult (List datasetState)) (datasetID : String)
    (h : ∀ j, GetDatasetState (polls j) datasetID = .error .stateNotFound) :
    ∀ fuel i, pollLoop polls datasetID i fuel = (.ok "", i + fuel + 1) := by
  intro fuel
  induction fuel with
  | zero =>
    intro i
    rw [pollLoop, h i]
    simp
  | succ n ih =>
    intro i
    rw [pollLoop, h i]
    simp only [reduceIte, ih (i + 1)]
    have harith : i + 1 + n + 1 = i + (n + 1) + 1 := by omega
    rw [harith]

/-- postedPayload skips a node listing. -/
theorem postedPayload_getNodes (l : List Request) :
    postedPayload (.getNodes :: l) = postedPayload l := rfl

/-- postedPayload returns the first creation payload. -/
theorem postedPayload_postCreate (p : configurationPayload) (l : List Request) :
    postedPayload (.postCreate p :: l) = some p := rfl

/-! ### Claim theorems -/

/-- Validation of the embedding against the repository's first hash test vector. -/
theorem datasetIDFromName_vector_hello :
    datasetIDFromName "hello" = "a6c0426f-f9a3-4b59-a62f-4807c382b768" := by decide

/-- Validation against the second test vector (the Go literal hello backslash-123 4). -/
theorem datasetIDFromName_vector_helloS4 :
    datasetIDFromName "helloS4" = "90a388bf-dfca-490f-812a-67aec0cd9f09" := by decide

/-- C8: the identifier derivation is deterministic — it is a pure function of
the name and the fixed NIL namespace over a fixed hash, so two evaluations on
the same name coincide, and every identifier has the fixed length 36. -/
theorem C8_datasetIDFromName_deterministic (v : String) :
    datasetIDFromName v = uuidString (newHashMD5 uuidNIL (strBytes v) 4) ∧
    datasetIDFromName v = datasetIDFromName v ∧
    (datasetIDFromName v).length = 36 :=
  ⟨rfl, rfl, datasetIDFromName_length v⟩

/-- C9: the default volume size constant (100 GiB in bytes) is an exact
multiple of 1024. -/
theorem C9_defaultVolumeSize_mod_1024 :
    parseDecimal defaultVolumeSize.data = 107374182400 ∧
    parseDecimal defaultVolumeSize.data % 1024 = 0 := by
  decide

/-- C3 counterexample: a Client whose configured host is h but whose client IP
is ip fails with StateNotFound on a node list that does contain a node with
host h, although the claim promises that node's uuid. -/
theorem C3_counterexample_host_vs_clientIP :
    ClientCfg.host ⟨"h", "ip", defaultVolumeSize⟩ = "h" ∧
    (⟨"U", "h"⟩ : nodeStatePayload) ∈ [(⟨"U", "h"⟩ : nodeStatePayload)] ∧
    Client.LookupPrimaryUUID ⟨"h", "ip", defaultVolumeSize⟩ (.ok [⟨"U", "h"⟩])
        = .error .stateNotFound :=
  ⟨rfl, List.mem_singleton.mpr rfl, rfl⟩

/-- C3 amended: the primary lookup returns the uuid of the first node whose
host equals the Client's configured client IP (for Client) respectively the
configured host (for flockerClient); if no node matches it fails with
StateNotFound, and transport or decode errors propagate unchanged. -/
theorem C3_lookupPrimaryUUID_amended (c1 : ClientCfg) (c2 : FlockerCfg)
    (states : List nodeStatePayload) (m : String) :
    ((∃ s, s ∈ states ∧ s.host = c1.clientIP ∧
        Client.LookupPrimaryUUID c1 (.ok states) = .ok s.uuid) ∨
      ((∀ s ∈ states, s.host ≠ c1.clientIP) ∧
        Client.LookupPrimaryUUID c1 (.ok states) = .error .stateNotFound)) ∧
    ((∃ s, s ∈ states ∧ s.host = c2.host ∧
        flockerClient.findPrimaryUUID c2 (.ok states) = .ok s.uuid) ∨
      ((∀ s ∈ states, s.host ≠ c2.host) ∧
        flockerClient.findPrimaryUUID c2 (.ok states) = .error .stateNotFound)) ∧
    Client.LookupPrimaryUUID c1 (.transportErr m) = .error (.transport m) ∧
    Client.LookupPrimaryUUID c1 (.decodeErr m) = .error (.decodeError m) ∧
    flockerClient.findPrimaryUUID c2 (.transportErr m) = .error (.transport m) ∧
    flockerClient.findPrimaryUUID c2 (.decodeErr m) = .error (.decodeError m) :=
  ⟨findNodeUUID_spec c1.clientIP states, findNodeUUID_spec c2.host states,
    rfl, rfl, rfl, rfl⟩

/-- C6: the configuration search returns the dataset id of the first entry in
list order whose name metadata equals the requested name, fails with
ConfigurationNotFound when no entry matches, and propagates the decode error
of a malformed body. -/
theorem C6_findIDInConfigurationsPayload_spec (configs : List configurationPayload)
    (name m : String) (k : Nat) :
    findIDInConfigurationsPayload (.error m) name = .error (.decodeError m) ∧
    ((∀ r ∈ configs, r.metadata.name ≠ name) →
      findIDInConfigurationsPayload (.ok configs) name = .error .configurationNotFound) ∧
    (k < configs.length → (configs.getD k dfltCfg).metadata.name = name →
      (∀ j, j < k → (configs.getD j dfltCfg).metadata.name ≠ name) →
      findIDInConfigurationsPayload (.ok configs) name
          = .ok (configs.getD k dfltCfg).datasetID) :=
  ⟨rfl,
   fun h => findIDInConfigurations_notFound name configs h,
   fun hk hmatch hbefore => findIDInConfigurations_first name configs k hk hmatch hbefore⟩

/-- C6 witness: on the repository's own test payload the search finds the
second entry, misses an absent name, and surfaces a decode error. -/
theorem C6_findIDInConfigurationsPayload_witness :
    findIDInConfigurationsPayload (.ok cfgsW) "search-for-this-name" = .ok "The-42-id" ∧
    findIDInConfigurationsPayload (.ok cfgsW) "it will not be found"
        = .error .configurationNotFound ∧
    findIDInConfigurationsPayload (.error "invalid json") "x"
        = .error (.decodeError "invalid json") := by
  refine ⟨?_, ?_, ?_⟩
  · exact (C6_findIDInConfigurationsPayload_spec cfgsW "search-for-this-name" "m" 1).2.2
      (by decide) (by decide)
      (fun j hj => by
        have hj0 : j = 0 := Nat.lt_one_iff.mp hj
        subst hj0
        decide)
  · exact (C6_findIDInConfigurationsPayload_spec cfgsW "it will not be found" "m" 0).2.1
      (by decide)
  · exact (C6_findIDInConfigurationsPayload_spec cfgsW "x" "invalid json" 0).1

/-- C7 counterexample: Client.UpdateDatasetPrimary succeeds on the
informational status 100 although it lies outside the interval from 200 to
299 and the claim demands the UpdateFailed error. -/
theorem C7_counterexample_status_100 :
    (Client.UpdateDatasetPrimary (.resp 100) "some-id" "new-primary").1 = .ok () ∧
    (100 : Nat) < 200 :=
  ⟨rfl, by decide⟩

/-- C7 amended: flockerClient.UpdateDatasetPrimary yields UpdateFailed for any
status outside the interval from 200 to 299 and success inside it, while
Client.UpdateDatasetPrimary yields UpdateFailed only for status at least 300
and success for every status below 300; both issue the single update POST and
never poll. -/
theorem C7_updateDatasetPrimary_amended (st : Nat) (id np dir m : String) :
    (200 ≤ st → st < 300 →
      (Client.UpdateDatasetPrimary (.resp st) id np).1 = .ok () ∧
      (flockerClient.UpdateDatasetPrimary (.resp st) dir np).1 = .ok ()) ∧
    (st < 200 ∨ 300 ≤ st →
      (flockerClient.UpdateDatasetPrimary (.resp st) dir np).1 = .error .updatingDataset) ∧
    (300 ≤ st →
      (Client.UpdateDatasetPrimary (.resp st) id np).1 = .error .updatingDataset) ∧
    (st < 200 → (Client.UpdateDatasetPrimary (.resp st) id np).1 = .ok ()) ∧
    (Client.UpdateDatasetPrimary (.resp st) id np).2 = [.postUpdate id np] ∧
    (flockerClient.UpdateDatasetPrimary (.resp st) dir np).2
        = [.postUpdate (datasetIDFromName dir) np] ∧
    (Client.UpdateDatasetPrimary (.transportErr m) id np).1 = .error (.transport m) ∧
    (flockerClient.UpdateDatasetPrimary (.transportErr m) dir np).1
        = .error (.transport m) := by
  refine ⟨?_, ?_, ?_, ?_, ?_, ?_, rfl, rfl⟩
  · intro h1 h2
    have hge : ¬ st ≥ 300 := by omega
    have hout : ¬ (st < 200 ∨ st ≥ 300) := by omega
    exact ⟨by simp [Client.UpdateDatasetPrimary, hge],
      by simp [flockerClient.UpdateDatasetPrimary, hout]⟩
  · intro h
    have hout : st < 200 ∨ st ≥ 300 := by omega
    simp [flockerClient.UpdateDatasetPrimary, hout]
  · intro h
    have hge : st ≥ 300 := by omega
    simp [Client.UpdateDatasetPrimary, hge]
  · intro h
    have hge : ¬ st ≥ 300 := by omega
    simp [Client.UpdateDatasetPrimary, hge]
  · simp only [Client.UpdateDatasetPrimary]
    split <;> rfl
  · simp only [flockerClient.UpdateDatasetPrimary]
    split <;> rfl

/-- C7 witness: a 204 succeeds for Client, a 150 fails for flockerClient. -/
theorem C7_updateDatasetPrimary_witness :
    (Client.UpdateDatasetPrimary (.resp 204) "some-id" "np").1 = .ok () ∧
    (flockerClient.UpdateDatasetPrimary (.resp 150) "dir" "np").1
        = .error .updatingDataset :=
  ⟨((C7_updateDatasetPrimary_amended 204 "some-id" "np" "dir" "m").1
      (by decide) (by decide)).1,
   (C7_updateDatasetPrimary_amended 150 "some-id" "np" "dir" "m").2.1
      (Or.inl (by decide))⟩

/-- C1: the spec (and the repository's own conflict test) expects CreateVolume
on a 409 conflict to return the name-derived identifier as success without
polling; the code instead returns the errVolumeAlreadyExists error on that
exact input — it does refrain from polling.  This evaluates the embedded
code at the failing input. -/
theorem C1_conflict_divergence :
    (flockerClient.CreateVolume ⟨"127.0.0.1", defaultVolumeSize⟩ env409 "dir" 24).1
        = .error .volumeAlreadyExists ∧
    (flockerClient.CreateVolume ⟨"127.0.0.1", defaultVolumeSize⟩ env409 "dir" 24).1
        ≠ .ok (datasetIDFromName "dir") ∧
    pollCount (flockerClient.CreateVolume ⟨"127.0.0.1", defaultVolumeSize⟩
        env409 "dir" 24).2 = 0 := by
  refine ⟨rfl, ?_, rfl⟩
  intro hcontra
  rw [show (flockerClient.CreateVolume ⟨"127.0.0.1", defaultVolumeSize⟩ env409 "dir" 24).1
      = Except.error Err.volumeAlreadyExists from rfl] at hcontra
  exact Except.noConfusion hcontra

/-- C2: the claim (and the source's own comment, which promises that the
timeout channel will return an error) says a run whose polls never find the
dataset ends at the deadline with the last observed not-found condition as a
non-nil error; the code instead returns the empty path with a nil error,
because the err returned in the timeout case is the function-scoped named
return — the polling err is shadowed inside the if statement — and it is
still nil from the successful creation POST.  This evaluates both embedded
implementations at the failing input: the deadline run is a success with an
empty path, not the claimed error. -/
theorem C2_timeout_divergence :
    (Client.CreateVolume ⟨"h", "h", defaultVolumeSize⟩ envTimeout "dir" 3).1 = .ok "" ∧
    (flockerClient.CreateVolume ⟨"h", defaultVolumeSize⟩ envTimeout "dir" 3).1 = .ok "" ∧
    (Client.CreateVolume ⟨"h", "h", defaultVolumeSize⟩ envTimeout "dir" 3).1
        ≠ .error .stateNotFound ∧
    (flockerClient.CreateVolume ⟨"h", defaultVolumeSize⟩ envTimeout "dir" 3).1
        ≠ .error .stateNotFound := by
  refine ⟨rfl, rfl, ?_, ?_⟩
  · intro hcontra
    rw [show (Client.CreateVolume ⟨"h", "h", defaultVolumeSize⟩ envTimeout "dir" 3).1
        = Except.ok "" from rfl] at hcontra
    exact Except.noConfusion hcontra
  · intro hcontra
    rw [show (flockerClient.CreateVolume ⟨"h", defaultVolumeSize⟩ envTimeout "dir" 3).1
        = Except.ok "" from rfl] at hcontra
    exact Except.noConfusion hcontra

/-- C4 counterexample: Client.CreateVolume posts a creation payload whose
dataset id field is empty (omitted on the wire), not the identifier computed
from the name. -/
theorem C4_counterexample_client_payload :
    postedPayload (Client.CreateVolume ⟨"h", "h", defaultVolumeSize⟩ env4 "dir" 0).2
        = some ⟨"U", "", defaultVolumeSize, ⟨"dir"⟩⟩ ∧
    "" ≠ datasetIDFromName "dir" := by
  refine ⟨rfl, ?_⟩
  intro h
  have hlen := datasetIDFromName_length "dir"
  rw [← h] at hlen
  exact absurd hlen (by decide)

/-- C4 amended: once the primary resolves, flockerClient.CreateVolume posts
exactly the resolved primary, the name-derived dataset id, the configured
maximum size and the name metadata, while Client.CreateVolume posts the same
payload except that its dataset id is left empty for the server to assign. -/
theorem C4_create_payload_amended (c1 : ClientCfg) (c2 : FlockerCfg) (env : CreateEnv)
    (dir u1 u2 : String) (fuel : Nat)
    (h1 : Client.LookupPrimaryUUID c1 env.nodes = .ok u1)
    (h2 : flockerClient.findPrimaryUUID c2 env.nodes = .ok u2) :
    postedPayload (Client.CreateVolume c1 env dir fuel).2
        = some ⟨u1, "", c1.maximumSize, ⟨dir⟩⟩ ∧
    postedPayload (flockerClient.CreateVolume c2 env dir fuel).2
        = some ⟨u2, datasetIDFromName dir, c2.maximumSize, ⟨dir⟩⟩ := by
  constructor
  · simp only [Client.CreateVolume, h1]
    cases env.create with
    | transportErr m => rfl
    | resp status body =>
      by_cases h409 : status = 409
      · simp [h409, postedPayload_getNodes, postedPayload_postCreate]
      · by_cases h300 : status ≥ 300
        · simp [h409, h300, postedPayload_getNodes, postedPayload_postCreate]
        · cases body with
          | error m => simp [h409, h300, postedPayload_getNodes, postedPayload_postCreate]
          | ok p => simp [h409, h300, postedPayload_getNodes, postedPayload_postCreate]
  · simp only [flockerClient.CreateVolume, h2]
    cases env.create with
    | transportErr m => rfl
    | resp status body =>
      by_cases h409 : status = 409
      · simp [h409, postedPayload_getNodes, postedPayload_postCreate]
      · by_cases h300 : status ≥ 300
        · simp [h409, h300, postedPayload_getNodes, postedPayload_postCreate]
        · simp [h409, h300, postedPayload_getNodes, postedPayload_postCreate]

/-- C4 witness: the amended payload shapes on a concrete accepted creation. -/
theorem C4_create_payload_witness :
    postedPayload (Client.CreateVolume ⟨"h", "h", defaultVolumeSize⟩ env4 "dir" 0).2
        = some ⟨"U", "", defaultVolumeSize, ⟨"dir"⟩⟩ ∧
    postedPayload (flockerClient.CreateVolume ⟨"h", defaultVolumeSize⟩ env4 "dir" 0).2
        = some ⟨"U", datasetIDFromName "dir", defaultVolumeSize, ⟨"dir"⟩⟩ :=
  C4_create_payload_amended ⟨"h", "h", defaultVolumeSize⟩ ⟨"h", defaultVolumeSize⟩
    env4 "dir" "U" "U" 0 rfl rfl

/-- C5: LookupVolume returns the mount path when the dataset state lookup
succeeds, translates a bare StateNotFound into VolumeDoesNotExist, and passes
every other error outcome through unchanged (for Client this includes errors
of the preceding name-to-id query). -/
theorem C5_lookupVolume_spec (env : LookupEnv) (states : FetchResult (List datasetState))
    (dir id : String) (s : datasetState) (e : Err) :
    (Client.QueryDatasetIDFromName env.configs dir = .ok id →
      GetDatasetState env.states id = .ok s →
      Client.LookupVolume env dir = .ok s.path) ∧
    (Client.QueryDatasetIDFromName env.configs dir = .ok id →
      GetDatasetState env.states id = .error .stateNotFound →
      Client.LookupVolume env dir = .error .volumeDoesNotExist) ∧
    (Client.QueryDatasetIDFromName env.configs dir = .ok id →
      GetDatasetState env.states id = .error e → e ≠ .stateNotFound →
      Client.LookupVolume env dir = .error e) ∧
    (Client.QueryDatasetIDFromName env.configs dir = .error e →
      Client.LookupVolume env dir = .error e) ∧
    (GetDatasetState states (datasetIDFromName dir) = .ok s →
      flockerClient.LookupVolume states dir = .ok s.path) ∧
    (GetDatasetState states (datasetIDFromName dir) = .error .stateNotFound →
      flockerClient.LookupVolume states dir = .error .volumeDoesNotExist) ∧
    (GetDatasetState states (datasetIDFromName dir) = .error e → e ≠ .stateNotFound →
      flockerClient.LookupVolume states dir = .error e) := by
  refine ⟨?_, ?_, ?_, ?_, ?_, ?_, ?_⟩
  · intro hq hs
    simp [Client.LookupVolume, hq, hs]
  · intro hq hs
    simp [Client.LookupVolume, hq, hs]
  · intro hq hs hne
    simp [Client.LookupVolume, hq, hs, hne]
  · intro hq
    simp [Client.LookupVolume, hq]
  · intro hs
    simp [flockerClient.LookupVolume, hs]
  · intro hs
    simp [flockerClient.LookupVolume, hs]
  · intro hs hne
    simp [flockerClient.LookupVolume, hs, hne]

/-- C5 witness: a present dataset yields its path for Client, and an empty
state list yields VolumeDoesNotExist for flockerClient. -/
theorem C5_lookupVolume_witness :
    Client.LookupVolume lookupEnvW "dir" = .ok "P" ∧
    flockerClient.LookupVolume (.ok []) "dir" = .error .volumeDoesNotExist :=
  ⟨(C5_lookupVolume_spec lookupEnvW (.ok []) "dir" "ID-1"
      ⟨"P", "ID-1", "", ""⟩ .stateNotFound).1 rfl rfl,
   (C5_lookupVolume_spec lookupEnvW (.ok []) "dir" "ID-1"
      ⟨"P", "ID-1", "", ""⟩ .stateNotFound).2.2.2.2.2.1 rfl⟩

/-- C10 counterexample: on identical responses (the primary resolves for both
since host and client IP coincide, the creation is accepted with a malformed
body, and no poll finds the dataset) Client.CreateVolume fails with the
decode error while flockerClient.CreateVolume, which never reads the body,
polls until the deadline and — through the shadowed err — returns the empty
path with a nil error: different outcomes. -/
theorem C10_counterexample_decode_divergence :
    (Client.CreateVolume ⟨"h", "h", defaultVolumeSize⟩ env10 "dir" 0).1
        = .error (.decodeError "bad json") ∧
    (flockerClient.CreateVolume ⟨"h", defaultVolumeSize⟩ env10 "dir" 0).1
        = .ok "" ∧
    (Client.CreateVolume ⟨"h", "h", defaultVolumeSize⟩ env10 "dir" 0).1
        ≠ (flockerClient.CreateVolume ⟨"h", defaultVolumeSize⟩ env10 "dir" 0).1 := by
  refine ⟨rfl, rfl, ?_⟩
  intro hcontra
  rw [show (Client.CreateVolume ⟨"h", "h", defaultVolumeSize⟩ env10 "dir" 0).1
        = Except.error (Err.decodeError "bad json") from rfl,
      show (flockerClient.CreateVolume ⟨"h", defaultVolumeSize⟩ env10 "dir" 0).1
        = Except.ok "" from rfl] at hcontra
  exact Except.noConfusion hcontra

/-- Helper for C10: with equal matching keys the two primary lookups agree. -/
theorem lookupPrimary_agree (c1 : ClientCfg) (c2 : FlockerCfg)
    (hkey : c1.clientIP = c2.host) (r : FetchResult (List nodeStatePayload)) :
    Client.LookupPrimaryUUID c1 r = flockerClient.findPrimaryUUID c2 r := by
  cases r with
  | transportErr m => rfl
  | decodeErr m => rfl
  | ok states => simp [Client.LookupPrimaryUUID, flockerClient.findPrimaryUUID, hkey]

/-- C10 amended: the two CreateVolume implementations are not observationally
equivalent in general; they return the same outcome whenever the Client's
configured client IP equals the flockerClient's configured host and every
accepted creation response body decodes to a payload whose dataset id equals
the name-derived identifier. -/
theorem C10_create_equivalence_amended (c1 : ClientCfg) (c2 : FlockerCfg) (env : CreateEnv)
    (dir : String) (fuel : Nat)
    (hkey : c1.clientIP = c2.host)
    (hbody : ∀ status body, env.create = .resp status body → status ≠ 409 → status < 300 →
      ∃ p, body = .ok p ∧ p.datasetID = datasetIDFromName dir) :
    (Client.CreateVolume c1 env dir fuel).1
        = (flockerClient.CreateVolume c2 env dir fuel).1 := by
  simp only [Client.CreateVolume, flockerClient.CreateVolume,
    lookupPrimary_agree c1 c2 hkey env.nodes]
  cases flockerClient.findPrimaryUUID c2 env.nodes with
  | error e => rfl
  | ok primary =>
    cases hc : env.create with
    | transportErr m => rfl
    | resp status body =>
      by_cases h409 : status = 409
      · simp [h409]
      · by_cases h300 : status ≥ 300
        · simp [h409, h300]
        · obtain ⟨p, rfl, hid⟩ := hbody status body hc h409 (by omega)
          simp [h409, h300, hid]

/-- C10 witness: with matching keys and a well-formed body carrying the
derived id, the two implementations agree on a concrete run. -/
theorem C10_create_equivalence_witness :
    (Client.CreateVolume ⟨"h", "h", defaultVolumeSize⟩ env10w "dir" 2).1
        = (flockerClient.CreateVolume ⟨"h", defaultVolumeSize⟩ env10w "dir" 2).1 :=
  C10_create_equivalence_amended ⟨"h", "h", defaultVolumeSize⟩ ⟨"h", defaultVolumeSize⟩
    env10w "dir" 2 rfl
    (fun status body h h409 h300 => by
      rw [show env10w.create = PostResult.resp 200
          (Except.ok ⟨"U", datasetIDFromName "dir", defaultVolumeSize, ⟨"dir"⟩⟩) from rfl] at h
      injection h with hstatus hbody
      exact ⟨⟨"U", datasetIDFromName "dir", defaultVolumeSize, ⟨"dir"⟩⟩, hbody.symm, rfl⟩)

end Flocker
